import Mathlib

/-!
Verification of the event-ingestion pipeline of the `spillyourguts-log`
repository: origin validation, rate limiting, idempotency deduplication,
durable event insert, and best-effort archive sync to Gitea.

The definitions below are a shallow embedding of the TypeScript source
(`functions/api/events/water.ts`, `functions/utils/gitea.ts`) and the D1
schema.  Databases are modelled as association lists mirroring the three
SQL tables; the external collaborators (D1 insert success, Gitea fetch and
write outcomes, the request clock, the random UUID) are supplied as
explicit oracle inputs.  Times are second-resolution naturals; JSON
numbers are restricted to integers (the behaviours under scrutiny never
depend on fractional amounts).  JavaScript 32-bit signed arithmetic in the
idempotency hash is modelled exactly over `Int`.
-/

namespace SpillYourGuts

/-- Constant from the source: rate-limit window, 60 seconds. -/
def RATE_LIMIT_WINDOW : Nat := 60

/-- Constant from the source: max requests per window. -/
def RATE_LIMIT_MAX_REQUESTS : Nat := 10

/-- Constant from the source: idempotency dedupe window, 5 seconds. -/
def IDEMPOTENCY_WINDOW : Nat := 5

/-- A JSON value as it may appear in the request body's `amount_oz` field.
Integers stand in for JSON numbers (fractional values play no role in the
claims); arrays and objects are collapsed to markers since the handler
only inspects `typeof`. -/
inductive JsonValue where
  | jnull
  | jnum (n : Int)
  | jstr (s : String)
  | jbool (b : Bool)
  | jarr
  | jobj
deriving DecidableEq, Repr

/-- A row of the `events` table (and the `Event` interface of the Gitea
client). -/
structure Event where
  id : String
  type : String
  amount_oz : Option Int
  created_at : Nat
  user_agent : Option String
  source : Option String
  note : Option String
deriving DecidableEq, Repr

/-- The D1 database: the three tables of the migration, as association
lists.  `rate_limits` is keyed by `(ip, window_start)` with value
`request_count`; `idempotency_keys` is keyed by `key_hash` with value
`created_at`. -/
structure DB where
  events : List Event
  rate_limits : List ((String × Nat) × Nat)
  idempotency_keys : List (String × Nat)
deriving DecidableEq, Repr

/-- The empty database (fresh deployment). -/
def DB.empty : DB := ⟨[], [], []⟩

/-- Point lookup in an association list (first matching key). -/
def alGet {α β : Type} [DecidableEq α] : List (α × β) → α → Option β
  | [], _ => none
  | (k, v) :: rest, k0 => if k = k0 then some v else alGet rest k0

/-- Upsert into an association list: models both `INSERT` of a fresh key
and `UPDATE`/`INSERT OR REPLACE` of an existing one (keys are primary keys
in the schema, so a key occurs at most once in reachable states). -/
def alSet {α β : Type} [DecidableEq α] (l : List (α × β)) (k : α) (v : β) :
    List (α × β) :=
  (k, v) :: l.filter (fun e => ¬ e.1 = k)

/-- JavaScript truthiness of an optional header / env string: `null` and
`""` are falsy. -/
def truthy : Option String → Bool
  | none => false
  | some s => s ≠ ""

/-- `body.source || null` style normalisation: empty strings become null. -/
def jsOrNull : Option String → Option String
  | none => none
  | some s => if s = "" then none else some s

/-- Source `getClientIP`: CF-Connecting-IP if truthy, else first
comma-component of X-Forwarded-For trimmed, else `"unknown"`. -/
def getClientIP (cfConnectingIP xForwardedFor : Option String) : String :=
  if truthy cfConnectingIP then cfConnectingIP.getD ""
  else if truthy xForwardedFor then
    (((xForwardedFor.getD "").splitOn ",").headD "").trim
  else "unknown"

/-- The request's `Origin` header together with the outcome of `new URL`:
the header may be missing (or empty, which the source treats the same via
`!origin`), may fail to parse (the `catch` branch), or parses to a
hostname.  URL parsing itself is a browser primitive, so it is modelled by
this three-way outcome rather than re-implemented. -/
inductive OriginHeader where
  | absent
  | unparsable
  | parsed (hostname : String)
deriving DecidableEq, Repr

/-- Source `isSameOrigin`: hostname comparison of the Origin header
against the serving URL's hostname.  (`request.url` always parses, so the
expected side is just a hostname.) -/
def isSameOrigin (origin : OriginHeader) (expectedHostname : String) : Bool :=
  match origin with
  | .absent => false
  | .unparsable => false
  | .parsed h => h = expectedHostname

/-- ECMAScript `ToInt32`: wrap an integer into `[-2^31, 2^31)`. -/
def toInt32 (x : Int) : Int := (x + 2147483648) % 4294967296 - 2147483648

/-- One iteration of the source's string hash:
`hash = ((hash << 5) - hash) + char; hash = hash & hash`.  In 32-bit JS
arithmetic this is exactly `ToInt32 (31 * hash + char)`. -/
def jsHashStep (h : Int) (c : Nat) : Int := toInt32 (h * 31 + c)

/-- The source's loop over `data.charCodeAt(i)` starting from `0`
(code points coincide with UTF-16 units on the ASCII data built here). -/
def jsStringHash (s : String) : Int :=
  s.data.foldl (fun h ch => jsHashStep h ch.toNat) 0

/-- `Math.abs(hash).toString(16)`. -/
def hexString (n : Nat) : String := (Nat.toDigits 16 n).asString

/-- Source `generateIdempotencyKey`: truncate the timestamp to the 5-second
window, hash `ip:amount:window`, and prefix the hex digest. -/
def generateIdempotencyKey (ip : String) (amount : Int) (timestamp : Nat) :
    String :=
  let window := timestamp / IDEMPOTENCY_WINDOW * IDEMPOTENCY_WINDOW
  let data := ip ++ ":" ++ toString amount ++ ":" ++ toString window
  "idempotency:" ++ hexString (jsStringHash data).natAbs

/-- Source `checkRateLimit`: fixed-window counter per `(ip, windowStart)`.
Deny without mutation at the cap; otherwise upsert `count + 1` (the source
issues `INSERT ... VALUES (.., 1)` when the count reads 0 and an
`UPDATE ... + 1` otherwise — both are the upsert here, as counters are
created at 1 and never stored at 0) and then opportunistically delete
windows older than one hour.  Nat subtraction in `now - 3600` agrees with
the JS semantics: for `now < 3600` the JS threshold is negative and
deletes nothing, as does the truncated 0. -/
def checkRateLimit (db : DB) (ip : String) (now : Nat) : Bool × DB :=
  let windowStart := now / RATE_LIMIT_WINDOW * RATE_LIMIT_WINDOW
  let currentCount := (alGet db.rate_limits (ip, windowStart)).getD 0
  if RATE_LIMIT_MAX_REQUESTS ≤ currentCount then
    (false, db)
  else
    let rl := alSet db.rate_limits (ip, windowStart) (currentCount + 1)
    let rl := rl.filter (fun e => ¬ e.1.2 < now - 3600)
    (true, { db with rate_limits := rl })

/-- Source `checkIdempotency`: reject when a record for the key exists and
is younger than the dedupe window (Nat `now - created` matches JS: a
future-dated record gives a negative JS age, also `< 5`); otherwise
`INSERT OR REPLACE` the key at `now` and delete records older than one
hour. -/
def checkIdempotency (db : DB) (keyHash : String) (now : Nat) : Bool × DB :=
  let dup : Bool := match alGet db.idempotency_keys keyHash with
    | some created => decide (now - created < IDEMPOTENCY_WINDOW)
    | none => false
  if dup then
    (false, db)
  else
    let ik := alSet db.idempotency_keys keyHash now
    let ik := ik.filter (fun e => ¬ e.2 < now - 3600)
    (true, { db with idempotency_keys := ik })

/-- The Gitea environment bindings (each may be unset). -/
structure GiteaEnv where
  GITEA_URL : Option String
  GITEA_TOKEN : Option String
  GITEA_OWNER : Option String
  GITEA_REPO : Option String
deriving DecidableEq, Repr

/-- The Gitea environment with nothing configured. -/
def GiteaEnv.unset : GiteaEnv := ⟨none, none, none, none⟩

/-- Source `GiteaConfig`. -/
structure GiteaConfig where
  url : String
  token : String
  owner : String
  repo : String
deriving DecidableEq, Repr

/-- Source `getGiteaConfig`: all four variables must be truthy
(`!url || !token || !owner || !repo` returns null). -/
def getGiteaConfig (env : GiteaEnv) : Option GiteaConfig :=
  if truthy env.GITEA_URL ∧ truthy env.GITEA_TOKEN ∧
      truthy env.GITEA_OWNER ∧ truthy env.GITEA_REPO then
    some ⟨env.GITEA_URL.getD "", env.GITEA_TOKEN.getD "",
          env.GITEA_OWNER.getD "", env.GITEA_REPO.getD ""⟩
  else none

/-- `String(month).padStart(2, '0')`: exact for every Nat, since only
single-digit month strings get padded. -/
def pad2 (n : Nat) : String := if n < 10 then "0" ++ toString n else toString n

/-- Source `getMonthlyFilePath`. -/
def getMonthlyFilePath (year month : Nat) : String :=
  "events/" ++ toString year ++ "-" ++ pad2 month ++ ".json"

/-- Proleptic-Gregorian civil date from days since 1970-01-01 (the
standard era-based algorithm), modelling the JS `Date` getters, which run
in UTC on the Workers platform.  Returns `(year, month, day)` with the
month 1-based, i.e. `getMonth() + 1` as used in the source. -/
def civilFromDays (days : Nat) : Nat × Nat × Nat :=
  let z := days + 719468
  let era := z / 146097
  let doe := z % 146097
  let yoe := (doe - doe / 1460 + doe / 36524 - doe / 146096) / 365
  let y := yoe + era * 400
  let doy := doe - (365 * yoe + yoe / 4 - yoe / 100)
  let mp := (5 * doy + 2) / 153
  let d := doy - (153 * mp + 2) / 5 + 1
  let m := if mp < 10 then mp + 3 else mp - 9
  (if m ≤ 2 then y + 1 else y, m, d)

/-- Year and month of `new Date(created_at * 1000)` as read by
`getFullYear()` and `getMonth() + 1`. -/
def yearMonthOf (created_at : Nat) : Nat × Nat :=
  let c := civilFromDays (created_at / 86400)
  (c.1, c.2.1)

/-- Oracle describing what the Gitea contents fetch does for the one file
the sync touches: the network/API call may fail, report 404, or return a
document (whose base64-decode + `JSON.parse` yields a list of events, or
fails) together with its revision `sha`. -/
inductive ArchiveFetch where
  | networkError
  | notFound
  | found (parsed : Option (List Event)) (sha : Option String)
deriving DecidableEq, Repr

/-- Outcome of one `appendEventToGitea` call, as observable by an
operator: skipped for lack of configuration, succeeded writing `written`
to `path` using revision token `shaUsed`, or failed with the error only
logged. -/
inductive SyncResult where
  | skippedNoConfig
  | success (path : String) (written : List Event) (shaUsed : Option String)
  | failed
deriving DecidableEq, Repr

/-- Source `getFileContent`: 404 yields `none` (file absent), other
failures throw.  The payload pairs the parse outcome of the decoded
content with the revision sha. -/
def getFileContent (fetch : ArchiveFetch) :
    Except String (Option (Option (List Event) × Option String)) :=
  match fetch with
  | .networkError => .error "Gitea API error"
  | .notFound => .ok none
  | .found parsed sha => .ok (some (parsed, sha))

/-- Source `putFileContent`: throws unless the write is accepted. -/
def putFileContent (putOk : Bool) : Except String Unit :=
  if putOk then .ok () else .error "Gitea API error"

/-- The `try` block of `appendEventToGitea`: compute the monthly path from
the event timestamp, fetch the existing document (absent ⇒ start from the
empty list), parse it (`JSON.parse` throws on bad content), append the
event, and write the result back keyed by the fetched sha. -/
def appendEventToGiteaBody (fetch : ArchiveFetch) (putOk : Bool)
    (event : Event) : Except String SyncResult := do
  let ym := yearMonthOf event.created_at
  let filepath := getMonthlyFilePath ym.1 ym.2
  let existingFile ← getFileContent fetch
  let (events, sha) ← match existingFile with
    | none => pure (([] : List Event), (none : Option String))
    | some (parsed, sha) =>
      match parsed with
      | some evs => pure (evs, sha)
      | none => Except.error "JSON parse error"
  let newEvents := events ++ [event]
  let _ ← putFileContent putOk
  pure (.success filepath newEvents sha)

/-- Source `appendEventToGitea`, including its outer `catch`: the whole
body is wrapped so that every internal error is logged and swallowed.  The
`Except` codomain records whether anything escapes to the caller: it never
does. -/
def appendEventToGiteaE (env : GiteaEnv) (fetch : ArchiveFetch)
    (putOk : Bool) (event : Event) : Except String SyncResult :=
  match getGiteaConfig env with
  | none => .ok .skippedNoConfig
  | some _ =>
    match appendEventToGiteaBody fetch putOk event with
    | .ok r => .ok r
    | .error _ => .ok .failed

/-- The sync outcome as a total function (what the caller observes). -/
def appendEventToGitea (env : GiteaEnv) (fetch : ArchiveFetch)
    (putOk : Bool) (event : Event) : SyncResult :=
  match appendEventToGiteaE env fetch putOk event with
  | .ok r => r
  | .error _ => .failed

/-- Parsed JSON request body (`RequestBody` in the source).  `amount_oz`
distinguishes an absent property from an explicit JSON value; `source` and
`note` are kept as optional strings (the handler only pipes them through
`|| null`). -/
structure RequestBody where
  amount_oz : Option JsonValue
  source : Option String
  note : Option String
deriving DecidableEq, Repr

/-- The parts of the incoming `Request` the handler reads.  `body = none`
models a body on which `request.json()` throws; `urlHostname` is the
hostname of `new URL(request.url).origin`. -/
structure Request where
  originHeader : OriginHeader
  urlHostname : String
  cfConnectingIP : Option String
  xForwardedFor : Option String
  userAgent : Option String
  body : Option RequestBody
deriving DecidableEq, Repr

/-- `body.amount_oz ?? 64`: nullish coalescing defaults both an absent
property and an explicit `null` to 64. -/
def resolveAmount : Option JsonValue → JsonValue
  | none => .jnum 64
  | some .jnull => .jnum 64
  | some v => v

/-- `typeof amount !== 'number' || amount < 0 || amount > 10000`: returns
the validated number, or `none` when the handler must answer 400. -/
def amountValid : JsonValue → Option Int
  | .jnum n => if n < 0 ∨ 10000 < n then none else some n
  | _ => none

/-- Response payload: the 201 success JSON or an error message. -/
inductive ResponseBody where
  | success (id : String) (amount_oz : Int) (created_at : Nat)
  | errorMsg (msg : String)
deriving DecidableEq, Repr

/-- An HTTP-style response. -/
structure HttpResponse where
  status : Nat
  body : ResponseBody
deriving DecidableEq, Repr

/-- Everything one `onRequestPost` invocation consumes: the request, the
database, the Gitea environment, and the oracle inputs — the clock
(`Math.floor(Date.now() / 1000)`), the UUID the source draws at random,
whether the D1 insert succeeds, and the archive collaborator's behaviour. -/
structure Context where
  request : Request
  db : DB
  env : GiteaEnv
  now : Nat
  freshId : String
  insertOk : Bool
  archiveFetch : ArchiveFetch
  archivePutOk : Bool
deriving DecidableEq, Repr

/-- Result of one invocation: the response, the database afterwards, how
many times the events-insert was attempted, and the outcome of the fired
archive sync (`none` when the sync was never invoked). -/
structure HandlerResult where
  response : HttpResponse
  db : DB
  insertAttempts : Nat
  archive : Option SyncResult
deriving DecidableEq, Repr

/-- Source `onRequestPost`: origin check, body parse, amount validation,
rate limit, idempotency, insert, respond, fire archive sync.  Each early
return carries the database state reached so far. -/
def onRequestPost (ctx : Context) : HandlerResult :=
  let req := ctx.request
  if ¬ isSameOrigin req.originHeader req.urlHostname then
    ⟨⟨403, .errorMsg "Invalid origin"⟩, ctx.db, 0, none⟩
  else
    match req.body with
    | none => ⟨⟨400, .errorMsg "Invalid JSON"⟩, ctx.db, 0, none⟩
    | some body =>
      match amountValid (resolveAmount body.amount_oz) with
      | none => ⟨⟨400, .errorMsg "Invalid amount_oz"⟩, ctx.db, 0, none⟩
      | some amount =>
        let ip := getClientIP req.cfConnectingIP req.xForwardedFor
        let now := ctx.now
        let rl := checkRateLimit ctx.db ip now
        if ¬ rl.1 then
          ⟨⟨429, .errorMsg "Rate limit exceeded"⟩, rl.2, 0, none⟩
        else
          let idempotencyKey := generateIdempotencyKey ip amount now
          let idem := checkIdempotency rl.2 idempotencyKey now
          if ¬ idem.1 then
            ⟨⟨409, .errorMsg "Duplicate request"⟩, idem.2, 0, none⟩
          else
            let event : Event :=
              ⟨ctx.freshId, "water", some amount, now,
               jsOrNull req.userAgent, jsOrNull body.source,
               jsOrNull body.note⟩
            if ctx.insertOk then
              let db3 := { idem.2 with events := idem.2.events ++ [event] }
              let sync :=
                appendEventToGitea ctx.env ctx.archiveFetch ctx.archivePutOk
                  event
              ⟨⟨201, .success ctx.freshId amount now⟩, db3, 1, some sync⟩
            else
              ⟨⟨500, .errorMsg "Internal server error"⟩, idem.2, 1, none⟩

/-- Convenience: a well-formed same-origin water POST from address `ip`
with integral amount `a` at time `t`, drawing fresh id `id`, with no Gitea
configuration, against database `db`. -/
def postWater (db : DB) (ip : String) (a : Int) (t : Nat) (id : String) :
    HandlerResult :=
  onRequestPost
    ⟨⟨.parsed "example.com", "example.com", some ip, none, none,
      some ⟨some (.jnum a), none, none⟩⟩,
     db, GiteaEnv.unset, t, id, true, .notFound, true⟩

/-- Run a sequence of water POSTs, threading the database; returns the
status codes in order and the final database. -/
def runSeq (db : DB) : List (String × Int × Nat × String) → List Nat × DB
  | [] => ([], db)
  | (ip, a, t, id) :: rest =>
    let r := postWater db ip a t id
    let rec0 := runSeq r.db rest
    (r.response.status :: rec0.1, rec0.2)

/-! ### Lemmas about the guard functions -/

theorem alGet_cons_self {α β : Type} [DecidableEq α] (k : α) (v : β)
    (l : List (α × β)) : alGet ((k, v) :: l) k = some v := by
  simp [alGet]

/-- Looking up the freshly upserted key after a cleanup pass that keeps
the fresh entry. -/
theorem alGet_alSet_filter {α β : Type} [DecidableEq α]
    (l : List (α × β)) (k : α) (v : β) (q : α × β → Bool)
    (hq : q (k, v) = true) :
    alGet ((alSet l k v).filter q) k = some v := by
  simp [alSet, List.filter_cons_of_pos hq, alGet]

/-- The rate limiter never touches events or idempotency records. -/
theorem checkRateLimit_frame (db : DB) (ip : String) (now : Nat) :
    (checkRateLimit db ip now).2.events = db.events ∧
    (checkRateLimit db ip now).2.idempotency_keys = db.idempotency_keys := by
  simp only [checkRateLimit]
  split <;> simp

/-- Below the cap, the rate limiter admits. -/
theorem checkRateLimit_allowed (db : DB) (ip : String) (now : Nat)
    (hc : (alGet db.rate_limits
      (ip, now / RATE_LIMIT_WINDOW * RATE_LIMIT_WINDOW)).getD 0
      < RATE_LIMIT_MAX_REQUESTS) :
    (checkRateLimit db ip now).1 = true := by
  simp only [checkRateLimit]
  split
  · omega
  · simp

/-- Below the cap, the counter for the current window reads back exactly
one higher after the call (the hour-old cleanup never touches the current
window). -/
theorem checkRateLimit_increment (db : DB) (ip : String) (now : Nat)
    (hc : (alGet db.rate_limits
      (ip, now / RATE_LIMIT_WINDOW * RATE_LIMIT_WINDOW)).getD 0
      < RATE_LIMIT_MAX_REQUESTS) :
    alGet (checkRateLimit db ip now).2.rate_limits
      (ip, now / RATE_LIMIT_WINDOW * RATE_LIMIT_WINDOW) =
    some ((alGet db.rate_limits
      (ip, now / RATE_LIMIT_WINDOW * RATE_LIMIT_WINDOW)).getD 0 + 1) := by
  simp only [checkRateLimit]
  split
  · omega
  · dsimp only
    refine alGet_alSet_filter _ _ _ _ ?_
    simp only [decide_not, Bool.not_eq_true', decide_eq_false_iff_not,
      RATE_LIMIT_WINDOW]
    omega

/-- At or above the cap, the rate limiter denies without any mutation. -/
theorem checkRateLimit_denied (db : DB) (ip : String) (now : Nat)
    (hc : RATE_LIMIT_MAX_REQUESTS ≤ (alGet db.rate_limits
      (ip, now / RATE_LIMIT_WINDOW * RATE_LIMIT_WINDOW)).getD 0) :
    checkRateLimit db ip now = (false, db) := by
  simp only [checkRateLimit]
  split
  · rfl
  · omega

/-- The idempotency guard never touches events or rate-limit counters. -/
theorem checkIdempotency_frame (db : DB) (key : String) (now : Nat) :
    (checkIdempotency db key now).2.events = db.events ∧
    (checkIdempotency db key now).2.rate_limits = db.rate_limits := by
  simp only [checkIdempotency]
  split <;> simp

/-- A fresh or stale key is admitted. -/
theorem checkIdempotency_admit (db : DB) (key : String) (now : Nat)
    (h : ∀ created, alGet db.idempotency_keys key = some created →
      IDEMPOTENCY_WINDOW ≤ now - created) :
    (checkIdempotency db key now).1 = true := by
  simp only [checkIdempotency]
  split
  · next hdup =>
    exfalso
    revert hdup
    cases hget : alGet db.idempotency_keys key with
    | none => simp
    | some created =>
      have := h created hget
      simp
      omega
  · simp

/-- After an admit, the key is recorded at `now` (cleanup keeps it). -/
theorem checkIdempotency_stores (db : DB) (key : String) (now : Nat)
    (h : ∀ created, alGet db.idempotency_keys key = some created →
      IDEMPOTENCY_WINDOW ≤ now - created) :
    alGet (checkIdempotency db key now).2.idempotency_keys key = some now := by
  simp only [checkIdempotency]
  split
  · next hdup =>
    exfalso
    revert hdup
    cases hget : alGet db.idempotency_keys key with
    | none => simp
    | some created =>
      have := h created hget
      simp
      omega
  · dsimp only
    refine alGet_alSet_filter _ _ _ _ ?_
    simp only [decide_not, Bool.not_eq_true', decide_eq_false_iff_not]
    omega

/-- A young record for the key makes the guard reject without mutation. -/
theorem checkIdempotency_dup (db : DB) (key : String) (now created : Nat)
    (hget : alGet db.idempotency_keys key = some created)
    (hage : now - created < IDEMPOTENCY_WINDOW) :
    checkIdempotency db key now = (false, db) := by
  simp only [checkIdempotency]
  rw [hget]
  simp [hage]

/-- Under passing origin, body, amount, rate-limit and idempotency checks,
the handler reaches the persist step, and the result is decided by whether
the single insert succeeds. -/
theorem onRequestPost_gates (ctx : Context) (body0 : RequestBody)
    (amount : Int)
    (hor : isSameOrigin ctx.request.originHeader ctx.request.urlHostname
      = true)
    (hbody : ctx.request.body = some body0)
    (hamt : amountValid (resolveAmount body0.amount_oz) = some amount)
    (hc : (alGet ctx.db.rate_limits
      (getClientIP ctx.request.cfConnectingIP ctx.request.xForwardedFor,
       ctx.now / RATE_LIMIT_WINDOW * RATE_LIMIT_WINDOW)).getD 0
      < RATE_LIMIT_MAX_REQUESTS)
    (hadm : ∀ created, alGet ctx.db.idempotency_keys
      (generateIdempotencyKey
        (getClientIP ctx.request.cfConnectingIP ctx.request.xForwardedFor)
        amount ctx.now) = some created →
      IDEMPOTENCY_WINDOW ≤ ctx.now - created) :
    onRequestPost ctx =
      (let ip := getClientIP ctx.request.cfConnectingIP
        ctx.request.xForwardedFor
       let db2 := (checkIdempotency (checkRateLimit ctx.db ip ctx.now).2
         (generateIdempotencyKey ip amount ctx.now) ctx.now).2
       let event : Event := ⟨ctx.freshId, "water", some amount, ctx.now,
         jsOrNull ctx.request.userAgent, jsOrNull body0.source,
         jsOrNull body0.note⟩
       if ctx.insertOk then
         ⟨⟨201, .success ctx.freshId amount ctx.now⟩,
          { db2 with events := db2.events ++ [event] }, 1,
          some (appendEventToGitea ctx.env ctx.archiveFetch ctx.archivePutOk
            event)⟩
       else ⟨⟨500, .errorMsg "Internal server error"⟩, db2, 1, none⟩) := by
  have hrl := checkRateLimit_allowed ctx.db
    (getClientIP ctx.request.cfConnectingIP ctx.request.xForwardedFor)
    ctx.now hc
  have hkeys := (checkRateLimit_frame ctx.db
    (getClientIP ctx.request.cfConnectingIP ctx.request.xForwardedFor)
    ctx.now).2
  have hidm : (checkIdempotency
      (checkRateLimit ctx.db
        (getClientIP ctx.request.cfConnectingIP ctx.request.xForwardedFor)
        ctx.now).2
      (generateIdempotencyKey
        (getClientIP ctx.request.cfConnectingIP ctx.request.xForwardedFor)
        amount ctx.now) ctx.now).1 = true := by
    refine checkIdempotency_admit _ _ _ ?_
    intro created hcr
    exact hadm created (by rwa [hkeys] at hcr)
  simp only [onRequestPost, hor, hbody, hamt, hrl, hidm]
  simp

/-! ### Claims -/

/-- C5: a request whose Origin header is missing, unparsable, or whose
hostname differs from the serving origin's hostname is answered 403
regardless of body validity, and no state (Event, rate-limit counter, or
idempotency record) is touched. -/
theorem C5_origin_forbidden (ctx : Context)
    (h : ctx.request.originHeader = .absent ∨
         ctx.request.originHeader = .unparsable ∨
         ∃ hn, ctx.request.originHeader = .parsed hn ∧
           hn ≠ ctx.request.urlHostname) :
    (onRequestPost ctx).response.status = 403 ∧
    (onRequestPost ctx).db = ctx.db ∧
    (onRequestPost ctx).insertAttempts = 0 ∧
    (onRequestPost ctx).archive = none := by
  have hb : isSameOrigin ctx.request.originHeader ctx.request.urlHostname
      = false := by
    rcases h with h | h | ⟨hn, h, hne⟩
    · simp [isSameOrigin, h]
    · simp [isSameOrigin, h]
    · simp [isSameOrigin, h, hne]
  simp [onRequestPost, hb]

/-- Witness for C5 at a concrete mismatched-origin request with a valid
body. -/
theorem C5_origin_forbidden_witness :
    (onRequestPost ⟨⟨.parsed "evil.example", "example.com", some "1.2.3.4",
      none, none, some ⟨some (.jnum 32), none, none⟩⟩, DB.empty,
      GiteaEnv.unset, 1000, "id-1", true, .notFound, true⟩).response.status
      = 403 ∧
    (onRequestPost ⟨⟨.parsed "evil.example", "example.com", some "1.2.3.4",
      none, none, some ⟨some (.jnum 32), none, none⟩⟩, DB.empty,
      GiteaEnv.unset, 1000, "id-1", true, .notFound, true⟩).db = DB.empty :=
  ⟨(C5_origin_forbidden _ (Or.inr (Or.inr ⟨"evil.example", rfl,
      by decide⟩))).1,
   (C5_origin_forbidden _ (Or.inr (Or.inr ⟨"evil.example", rfl,
      by decide⟩))).2.1⟩

/-- C9: with both identifying headers absent, the client address is the
constant `"unknown"`, so all such requests share one rate-limit counter
per window and one idempotency keyspace. -/
theorem C9_unknown_fallback :
    getClientIP none none = "unknown" ∧
    (∀ amount t, generateIdempotencyKey (getClientIP none none) amount t =
      generateIdempotencyKey "unknown" amount t) ∧
    (∀ db t, checkRateLimit db (getClientIP none none) t =
      checkRateLimit db "unknown" t) :=
  ⟨rfl, fun _ _ => rfl, fun _ _ => rfl⟩

/-- C2 counterexample: `amount_oz` present with the non-numeric JSON value
`null` is *not* rejected: nullish coalescing defaults it to 64 and the
request is persisted with a 201, contradicting the claim that every
present non-numeric value yields 400 with no Event created. -/
theorem C2_null_amount_admitted :
    (onRequestPost ⟨⟨.parsed "example.com", "example.com", some "1.2.3.4",
      none, none, some ⟨some .jnull, none, none⟩⟩, DB.empty, GiteaEnv.unset,
      1000, "id-1", true, .notFound, true⟩).response.status = 201 ∧
    (onRequestPost ⟨⟨.parsed "example.com", "example.com", some "1.2.3.4",
      none, none, some ⟨some .jnull, none, none⟩⟩, DB.empty, GiteaEnv.unset,
      1000, "id-1", true, .notFound, true⟩).db.events.length = 1 := by
  decide

/-- C2 (amended): an absent *or null* `amount_oz` defaults to 64 — the
request is handled exactly as if the number 64 had been sent; any other
non-numeric value, or a number outside `[0, 10000]`, is answered 400 with
no Event, rate-limit counter, or idempotency record created or
modified. -/
theorem C2_amount_validation (ctx : Context) (body0 : RequestBody)
    (hbody : ctx.request.body = some body0) :
    ((body0.amount_oz = none ∨ body0.amount_oz = some .jnull) →
      onRequestPost ctx = onRequestPost { ctx with
        request := { ctx.request with
          body := some { body0 with amount_oz := some (.jnum 64) } } }) ∧
    (∀ v, body0.amount_oz = some v → v ≠ .jnull → amountValid v = none →
      (onRequestPost ctx).response.status = 403 ∨
      ((onRequestPost ctx).response.status = 400 ∧
       (onRequestPost ctx).db = ctx.db ∧
       (onRequestPost ctx).insertAttempts = 0 ∧
       (onRequestPost ctx).archive = none)) := by
  constructor
  · intro h
    have hres : resolveAmount body0.amount_oz = .jnum 64 := by
      rcases h with h | h <;> simp [resolveAmount, h]
    simp only [onRequestPost, hbody, hres]
    simp [resolveAmount]
  · intro v hv hnn hinv
    by_cases hor : isSameOrigin ctx.request.originHeader
        ctx.request.urlHostname = true
    · right
      have hres : resolveAmount body0.amount_oz = v := by
        cases v <;> simp_all [resolveAmount]
      simp [onRequestPost, hbody, hor, hres, hinv]
    · left
      simp only [Bool.not_eq_true] at hor
      simp [onRequestPost, hor]

/-- Witness for C2: a string amount on a same-origin request is answered
400 leaving the database untouched, and an absent amount is processed as
64. -/
theorem C2_amount_validation_witness :
    ((onRequestPost ⟨⟨.parsed "example.com", "example.com", none, none,
        none, some ⟨some (.jstr "x"), none, none⟩⟩, DB.empty, GiteaEnv.unset,
        7, "id-1", true, .notFound, true⟩).response.status = 403 ∨
      ((onRequestPost ⟨⟨.parsed "example.com", "example.com", none, none,
        none, some ⟨some (.jstr "x"), none, none⟩⟩, DB.empty, GiteaEnv.unset,
        7, "id-1", true, .notFound, true⟩).response.status = 400 ∧
       (onRequestPost ⟨⟨.parsed "example.com", "example.com", none, none,
        none, some ⟨some (.jstr "x"), none, none⟩⟩, DB.empty, GiteaEnv.unset,
        7, "id-1", true, .notFound, true⟩).db = DB.empty ∧
       (onRequestPost ⟨⟨.parsed "example.com", "example.com", none, none,
        none, some ⟨some (.jstr "x"), none, none⟩⟩, DB.empty, GiteaEnv.unset,
        7, "id-1", true, .notFound, true⟩).insertAttempts = 0 ∧
       (onRequestPost ⟨⟨.parsed "example.com", "example.com", none, none,
        none, some ⟨some (.jstr "x"), none, none⟩⟩, DB.empty, GiteaEnv.unset,
        7, "id-1", true, .notFound, true⟩).archive = none)) ∧
    onRequestPost ⟨⟨.parsed "example.com", "example.com", none, none, none,
        some ⟨none, none, none⟩⟩, DB.empty, GiteaEnv.unset, 7, "id-1", true,
        .notFound, true⟩ =
      onRequestPost ⟨⟨.parsed "example.com", "example.com", none, none,
        none, some ⟨some (.jnum 64), none, none⟩⟩, DB.empty, GiteaEnv.unset,
        7, "id-1", true, .notFound, true⟩ :=
  ⟨(C2_amount_validation _ _ rfl).2 (.jstr "x") rfl (by decide) (by decide),
   (C2_amount_validation _ _ rfl).1 (Or.inl rfl)⟩

/-- C3: the rate limiter reads the counter of the fixed 60-second window;
at or above 10 it denies without mutating anything, otherwise it admits
and the counter reads one higher (1 when it was absent); concretely, the
11th request of an address inside one window is answered 429 while a
different address in the same window still gets 201. -/
theorem C3_rate_limiter (db : DB) (ip : String) (now : Nat) :
    (RATE_LIMIT_MAX_REQUESTS ≤ (alGet db.rate_limits
        (ip, now / RATE_LIMIT_WINDOW * RATE_LIMIT_WINDOW)).getD 0 →
      checkRateLimit db ip now = (false, db)) ∧
    ((alGet db.rate_limits
        (ip, now / RATE_LIMIT_WINDOW * RATE_LIMIT_WINDOW)).getD 0
        < RATE_LIMIT_MAX_REQUESTS →
      (checkRateLimit db ip now).1 = true ∧
      alGet (checkRateLimit db ip now).2.rate_limits
        (ip, now / RATE_LIMIT_WINDOW * RATE_LIMIT_WINDOW) =
        some ((alGet db.rate_limits
          (ip, now / RATE_LIMIT_WINDOW * RATE_LIMIT_WINDOW)).getD 0 + 1)) ∧
    (runSeq DB.empty
      [("A", 0, 1000, "i0"), ("A", 1, 1000, "i1"), ("A", 2, 1000, "i2"),
       ("A", 3, 1000, "i3"), ("A", 4, 1000, "i4"), ("A", 5, 1000, "i5"),
       ("A", 6, 1000, "i6"), ("A", 7, 1000, "i7"), ("A", 8, 1000, "i8"),
       ("A", 9, 1000, "i9"), ("A", 10, 1000, "i10"),
       ("B", 64, 1000, "i11")]).1 =
      [201, 201, 201, 201, 201, 201, 201, 201, 201, 201, 429, 201] :=
  ⟨checkRateLimit_denied db ip now,
   fun hc => ⟨checkRateLimit_allowed db ip now hc,
     checkRateLimit_increment db ip now hc⟩,
   by decide⟩

/-- Witness for C3: a full counter denies without mutation; an absent
counter is created at 1. -/
theorem C3_rate_limiter_witness :
    checkRateLimit ⟨[], [(("A", 60), 10)], []⟩ "A" 65 =
      (false, ⟨[], [(("A", 60), 10)], []⟩) ∧
    alGet (checkRateLimit DB.empty "A" 65).2.rate_limits ("A", 60) =
      some 1 :=
  ⟨(C3_rate_limiter ⟨[], [(("A", 60), 10)], []⟩ "A" 65).1 (by decide),
   ((C3_rate_limiter DB.empty "A" 65).2.1 (by decide)).2⟩

/-- C10: a request rejected as a duplicate (409) has already incremented
the rate-limit counter for its address and window before the idempotency
check ran, while writing no Event and no new idempotency record. -/
theorem C10_duplicate_consumes_budget (ctx : Context) (body0 : RequestBody)
    (amount : Int) (created : Nat)
    (hor : isSameOrigin ctx.request.originHeader ctx.request.urlHostname
      = true)
    (hbody : ctx.request.body = some body0)
    (hamt : amountValid (resolveAmount body0.amount_oz) = some amount)
    (hc : (alGet ctx.db.rate_limits
      (getClientIP ctx.request.cfConnectingIP ctx.request.xForwardedFor,
       ctx.now / RATE_LIMIT_WINDOW * RATE_LIMIT_WINDOW)).getD 0
      < RATE_LIMIT_MAX_REQUESTS)
    (hdup : alGet ctx.db.idempotency_keys
      (generateIdempotencyKey
        (getClientIP ctx.request.cfConnectingIP ctx.request.xForwardedFor)
        amount ctx.now) = some created)
    (hage : ctx.now - created < IDEMPOTENCY_WINDOW) :
    (onRequestPost ctx).response.status = 409 ∧
    alGet (onRequestPost ctx).db.rate_limits
      (getClientIP ctx.request.cfConnectingIP ctx.request.xForwardedFor,
       ctx.now / RATE_LIMIT_WINDOW * RATE_LIMIT_WINDOW) =
      some ((alGet ctx.db.rate_limits
        (getClientIP ctx.request.cfConnectingIP ctx.request.xForwardedFor,
         ctx.now / RATE_LIMIT_WINDOW * RATE_LIMIT_WINDOW)).getD 0 + 1) ∧
    (onRequestPost ctx).db.events = ctx.db.events ∧
    (onRequestPost ctx).db.idempotency_keys = ctx.db.idempotency_keys ∧
    (onRequestPost ctx).insertAttempts = 0 := by
  have hrl := checkRateLimit_allowed ctx.db
    (getClientIP ctx.request.cfConnectingIP ctx.request.xForwardedFor)
    ctx.now hc
  have hframe := checkRateLimit_frame ctx.db
    (getClientIP ctx.request.cfConnectingIP ctx.request.xForwardedFor)
    ctx.now
  have hdup2 : checkIdempotency
      (checkRateLimit ctx.db
        (getClientIP ctx.request.cfConnectingIP ctx.request.xForwardedFor)
        ctx.now).2
      (generateIdempotencyKey
        (getClientIP ctx.request.cfConnectingIP ctx.request.xForwardedFor)
        amount ctx.now) ctx.now =
      (false, (checkRateLimit ctx.db
        (getClientIP ctx.request.cfConnectingIP ctx.request.xForwardedFor)
        ctx.now).2) :=
    checkIdempotency_dup _ _ _ created (by rw [hframe.2]; exact hdup) hage
  simp only [onRequestPost, hor, hbody, hamt, hrl, hdup2]
  simp
  exact ⟨checkRateLimit_increment _ _ _ hc, hframe.1, hframe.2⟩

set_option maxRecDepth 8000 in
/-- Witness for C10 at a concrete duplicate request: the counter moves
from absent to 1 while the tables stay otherwise untouched. -/
theorem C10_duplicate_consumes_budget_witness :
    (onRequestPost ⟨⟨.parsed "example.com", "example.com", some "1.2.3.4",
      none, none, some ⟨some (.jnum 32), none, none⟩⟩,
      ⟨[], [], [(generateIdempotencyKey "1.2.3.4" 32 1000, 998)]⟩,
      GiteaEnv.unset, 1000, "id-1", true, .notFound,
      true⟩).response.status = 409 ∧
    alGet (onRequestPost ⟨⟨.parsed "example.com", "example.com",
      some "1.2.3.4", none, none, some ⟨some (.jnum 32), none, none⟩⟩,
      ⟨[], [], [(generateIdempotencyKey "1.2.3.4" 32 1000, 998)]⟩,
      GiteaEnv.unset, 1000, "id-1", true, .notFound,
      true⟩).db.rate_limits ("1.2.3.4", 960) = some 1 ∧
    (onRequestPost ⟨⟨.parsed "example.com", "example.com", some "1.2.3.4",
      none, none, some ⟨some (.jnum 32), none, none⟩⟩,
      ⟨[], [], [(generateIdempotencyKey "1.2.3.4" 32 1000, 998)]⟩,
      GiteaEnv.unset, 1000, "id-1", true, .notFound,
      true⟩).db.idempotency_keys =
      [(generateIdempotencyKey "1.2.3.4" 32 1000, 998)] := by
  have h := C10_duplicate_consumes_budget
    ⟨⟨.parsed "example.com", "example.com", some "1.2.3.4", none, none,
      some ⟨some (.jnum 32), none, none⟩⟩,
     ⟨[], [], [(generateIdempotencyKey "1.2.3.4" 32 1000, 998)]⟩,
     GiteaEnv.unset, 1000, "id-1", true, .notFound, true⟩
    ⟨some (.jnum 32), none, none⟩ 32 998 (by decide) rfl (by decide)
    (by decide) (by decide) (by decide)
  exact ⟨h.1, h.2.1, h.2.2.2.1⟩

/-- C4: when every gate passes but the Event Store insert fails, the
handler answers 500, leaves no Event row (in particular none under the
generated id), attempts the insert exactly once, and never invokes the
archive sync. -/
theorem C4_insert_failure (ctx : Context) (body0 : RequestBody)
    (amount : Int)
    (hor : isSameOrigin ctx.request.originHeader ctx.request.urlHostname
      = true)
    (hbody : ctx.request.body = some body0)
    (hamt : amountValid (resolveAmount body0.amount_oz) = some amount)
    (hc : (alGet ctx.db.rate_limits
      (getClientIP ctx.request.cfConnectingIP ctx.request.xForwardedFor,
       ctx.now / RATE_LIMIT_WINDOW * RATE_LIMIT_WINDOW)).getD 0
      < RATE_LIMIT_MAX_REQUESTS)
    (hadm : ∀ created, alGet ctx.db.idempotency_keys
      (generateIdempotencyKey
        (getClientIP ctx.request.cfConnectingIP ctx.request.xForwardedFor)
        amount ctx.now) = some created →
      IDEMPOTENCY_WINDOW ≤ ctx.now - created)
    (hins : ctx.insertOk = false)
    (hfresh : ctx.freshId ∉ ctx.db.events.map Event.id) :
    (onRequestPost ctx).response.status = 500 ∧
    (onRequestPost ctx).db.events = ctx.db.events ∧
    ctx.freshId ∉ (onRequestPost ctx).db.events.map Event.id ∧
    (onRequestPost ctx).insertAttempts = 1 ∧
    (onRequestPost ctx).archive = none := by
  have hev : (onRequestPost ctx).db.events = ctx.db.events := by
    rw [onRequestPost_gates ctx body0 amount hor hbody hamt hc hadm]
    simp only [hins]
    simp only [Bool.false_eq_true, if_false]
    rw [(checkIdempotency_frame _ _ _).1, (checkRateLimit_frame _ _ _).1]
  refine ⟨?_, hev, by rw [hev]; exact hfresh, ?_, ?_⟩ <;>
    (rw [onRequestPost_gates ctx body0 amount hor hbody hamt hc hadm]
     simp [hins])

set_option maxRecDepth 8000 in
/-- Witness for C4: a concrete passing request whose insert fails yields
500 with an unchanged (empty) events table, one attempt, and no sync. -/
theorem C4_insert_failure_witness :
    (onRequestPost ⟨⟨.parsed "example.com", "example.com", some "1.2.3.4",
      none, none, some ⟨some (.jnum 32), none, none⟩⟩, DB.empty,
      GiteaEnv.unset, 1000, "id-1", false, .notFound,
      true⟩).response.status = 500 ∧
    (onRequestPost ⟨⟨.parsed "example.com", "example.com", some "1.2.3.4",
      none, none, some ⟨some (.jnum 32), none, none⟩⟩, DB.empty,
      GiteaEnv.unset, 1000, "id-1", false, .notFound,
      true⟩).db.events = [] ∧
    (onRequestPost ⟨⟨.parsed "example.com", "example.com", some "1.2.3.4",
      none, none, some ⟨some (.jnum 32), none, none⟩⟩, DB.empty,
      GiteaEnv.unset, 1000, "id-1", false, .notFound,
      true⟩).insertAttempts = 1 ∧
    (onRequestPost ⟨⟨.parsed "example.com", "example.com", some "1.2.3.4",
      none, none, some ⟨some (.jnum 32), none, none⟩⟩, DB.empty,
      GiteaEnv.unset, 1000, "id-1", false, .notFound,
      true⟩).archive = none := by
  have h := C4_insert_failure
    ⟨⟨.parsed "example.com", "example.com", some "1.2.3.4", none, none,
      some ⟨some (.jnum 32), none, none⟩⟩, DB.empty, GiteaEnv.unset, 1000,
      "id-1", false, .notFound, true⟩
    ⟨some (.jnum 32), none, none⟩ 32 (by decide) rfl (by decide) (by decide)
    (fun created hcr => nomatch hcr) rfl (by decide)
  exact ⟨h.1, h.2.1, h.2.2.2.1, h.2.2.2.2⟩

/-- C7: the archive sync never lets an error escape to its caller (the
outer catch swallows every internal failure), and a request whose persist
step succeeded is answered 201 with the Event in the store regardless of
the archive collaborator's behaviour: changing the archive oracle changes
neither the response nor the database. -/
theorem C7_archive_isolation :
    (∀ env fetch putOk event,
      (appendEventToGiteaE env fetch putOk event).isOk = true) ∧
    (∀ ctx : Context, ∀ body0 amount,
      isSameOrigin ctx.request.originHeader ctx.request.urlHostname
        = true →
      ctx.request.body = some body0 →
      amountValid (resolveAmount body0.amount_oz) = some amount →
      (alGet ctx.db.rate_limits
        (getClientIP ctx.request.cfConnectingIP ctx.request.xForwardedFor,
         ctx.now / RATE_LIMIT_WINDOW * RATE_LIMIT_WINDOW)).getD 0
        < RATE_LIMIT_MAX_REQUESTS →
      (∀ created, alGet ctx.db.idempotency_keys
        (generateIdempotencyKey
          (getClientIP ctx.request.cfConnectingIP
            ctx.request.xForwardedFor) amount ctx.now) = some created →
        IDEMPOTENCY_WINDOW ≤ ctx.now - created) →
      ctx.insertOk = true →
      (onRequestPost ctx).response.status = 201 ∧
      (∃ e, e ∈ (onRequestPost ctx).db.events ∧ e.id = ctx.freshId) ∧
      (∀ fetch2 putOk2,
        (onRequestPost { ctx with
          archiveFetch := fetch2, archivePutOk := putOk2 }).response =
          (onRequestPost ctx).response ∧
        (onRequestPost { ctx with
          archiveFetch := fetch2, archivePutOk := putOk2 }).db =
          (onRequestPost ctx).db)) := by
  constructor
  · intro env fetch putOk event
    simp only [appendEventToGiteaE]
    cases hcfg : getGiteaConfig env with
    | none => rfl
    | some cfg =>
      cases hb : appendEventToGiteaBody fetch putOk event with
      | ok r => rfl
      | error e => rfl
  · intro ctx body0 amount hor hbody hamt hc hadm hins
    refine ⟨?_, ?_, ?_⟩
    · rw [onRequestPost_gates ctx body0 amount hor hbody hamt hc hadm]
      simp [hins]
    · rw [onRequestPost_gates ctx body0 amount hor hbody hamt hc hadm]
      simp only [hins, if_true]
      refine ⟨⟨ctx.freshId, "water", some amount, ctx.now,
        jsOrNull ctx.request.userAgent, jsOrNull body0.source,
        jsOrNull body0.note⟩, ?_, rfl⟩
      simp
    · intro fetch2 putOk2
      rw [onRequestPost_gates ctx body0 amount hor hbody hamt hc hadm,
        onRequestPost_gates
          { ctx with archiveFetch := fetch2, archivePutOk := putOk2 }
          body0 amount hor hbody hamt hc hadm]
      simp [hins]

set_option maxRecDepth 8000 in
/-- Witness for C7: a concrete unreachable-archive run still answers 201
with the Event stored, and the sync call never throws. -/
theorem C7_archive_isolation_witness :
    (appendEventToGiteaE ⟨some "u", some "t", some "o", some "r"⟩
      .networkError false
      ⟨"e1", "water", some 32, 1000, none, none, none⟩).isOk = true ∧
    (onRequestPost ⟨⟨.parsed "example.com", "example.com", some "1.2.3.4",
      none, none, some ⟨some (.jnum 32), none, none⟩⟩, DB.empty,
      ⟨some "u", some "t", some "o", some "r"⟩, 1000, "id-1", true,
      .networkError, false⟩).response.status = 201 ∧
    (∃ e, e ∈ (onRequestPost ⟨⟨.parsed "example.com", "example.com",
      some "1.2.3.4", none, none, some ⟨some (.jnum 32), none, none⟩⟩,
      DB.empty, ⟨some "u", some "t", some "o", some "r"⟩, 1000, "id-1",
      true, .networkError, false⟩).db.events ∧ e.id = "id-1") := by
  refine ⟨C7_archive_isolation.1 _ _ _ _, ?_, ?_⟩
  · exact (C7_archive_isolation.2
      ⟨⟨.parsed "example.com", "example.com", some "1.2.3.4", none, none,
        some ⟨some (.jnum 32), none, none⟩⟩, DB.empty,
        ⟨some "u", some "t", some "o", some "r"⟩, 1000, "id-1", true,
        .networkError, false⟩
      ⟨some (.jnum 32), none, none⟩ 32 (by decide) rfl (by decide)
      (by decide) (fun created hcr => nomatch hcr) rfl).1
  · exact (C7_archive_isolation.2
      ⟨⟨.parsed "example.com", "example.com", some "1.2.3.4", none, none,
        some ⟨some (.jnum 32), none, none⟩⟩, DB.empty,
        ⟨some "u", some "t", some "o", some "r"⟩, 1000, "id-1", true,
        .networkError, false⟩
      ⟨some (.jnum 32), none, none⟩ 32 (by decide) rfl (by decide)
      (by decide) (fun created hcr => nomatch hcr) rfl).2.1

/-- C8: with a configured archive, the sync writes to the monthly path
derived from the event's timestamp (events/YYYY-MM.json, same path for
same-month events), treats a 404 on the fetch as an empty starting
sequence (not an error), and the written document is exactly the fetched
sequence with the new event appended. -/
theorem C8_monthly_append (env : GiteaEnv) (event : Event)
    (evs : List Event) (sha0 : Option String)
    (hcfg : getGiteaConfig env ≠ none) :
    appendEventToGitea env .notFound true event =
      .success (getMonthlyFilePath (yearMonthOf event.created_at).1
        (yearMonthOf event.created_at).2) [event] none ∧
    appendEventToGitea env (.found (some evs) sha0) true event =
      .success (getMonthlyFilePath (yearMonthOf event.created_at).1
        (yearMonthOf event.created_at).2) (evs ++ [event]) sha0 ∧
    (∀ e2 : Event,
      yearMonthOf e2.created_at = yearMonthOf event.created_at →
      appendEventToGitea env (.found (some evs) sha0) true e2 =
        .success (getMonthlyFilePath (yearMonthOf event.created_at).1
          (yearMonthOf event.created_at).2) (evs ++ [e2]) sha0) := by
  obtain ⟨cfg, hcfg2⟩ := Option.ne_none_iff_exists'.mp hcfg
  refine ⟨?_, ?_, ?_⟩
  · simp only [appendEventToGitea, appendEventToGiteaE, hcfg2]
    rfl
  · simp only [appendEventToGitea, appendEventToGiteaE, hcfg2]
    rfl
  · intro e2 hym
    have h2 : appendEventToGitea env (.found (some evs) sha0) true e2 =
        .success (getMonthlyFilePath (yearMonthOf e2.created_at).1
          (yearMonthOf e2.created_at).2) (evs ++ [e2]) sha0 := by
      simp only [appendEventToGitea, appendEventToGiteaE, hcfg2]
      rfl
    rw [h2, hym]

/-- Witness for C8: a concrete November 2023 event lands in
events/2023-11.json, both when the file is absent and when it already
holds an event. -/
theorem C8_monthly_append_witness :
    appendEventToGitea ⟨some "u", some "t", some "o", some "r"⟩ .notFound
      true ⟨"e1", "water", some 32, 1700000000, none, none, none⟩ =
      .success "events/2023-11.json"
        [⟨"e1", "water", some 32, 1700000000, none, none, none⟩] none ∧
    appendEventToGitea ⟨some "u", some "t", some "o", some "r"⟩
      (.found (some [⟨"e0", "water", some 8, 1699000000, none, none,
        none⟩]) (some "abc")) true
      ⟨"e1", "water", some 32, 1700000000, none, none, none⟩ =
      .success "events/2023-11.json"
        [⟨"e0", "water", some 8, 1699000000, none, none, none⟩,
         ⟨"e1", "water", some 32, 1700000000, none, none, none⟩]
        (some "abc") :=
  ⟨(C8_monthly_append ⟨some "u", some "t", some "o", some "r"⟩
      ⟨"e1", "water", some 32, 1700000000, none, none, none⟩
      [⟨"e0", "water", some 8, 1699000000, none, none, none⟩] (some "abc")
      (by decide)).1,
   (C8_monthly_append ⟨some "u", some "t", some "o", some "r"⟩
      ⟨"e1", "water", some 32, 1700000000, none, none, none⟩
      [⟨"e0", "water", some 8, 1699000000, none, none, none⟩] (some "abc")
      (by decide)).2.1⟩

/-- Same dedupe bucket ⇒ the derived idempotency key is identical. -/
theorem generateIdempotencyKey_window (ip : String) (a : Int) (t1 t2 : Nat)
    (h : t1 / IDEMPOTENCY_WINDOW = t2 / IDEMPOTENCY_WINDOW) :
    generateIdempotencyKey ip a t1 = generateIdempotencyKey ip a t2 := by
  simp [generateIdempotencyKey, h]

/-- The 5-second dedupe buckets refine the 60-second rate windows: two
times in one dedupe bucket share their rate window. -/
theorem rateWindow_of_dedupeWindow (t1 t2 : Nat)
    (h : t1 / IDEMPOTENCY_WINDOW = t2 / IDEMPOTENCY_WINDOW) :
    t1 / RATE_LIMIT_WINDOW * RATE_LIMIT_WINDOW =
      t2 / RATE_LIMIT_WINDOW * RATE_LIMIT_WINDOW := by
  simp only [IDEMPOTENCY_WINDOW] at h
  simp only [RATE_LIMIT_WINDOW]
  omega

/-- Evaluating the rate limiter against the empty database. -/
theorem checkRateLimit_empty (ip : String) (now : Nat) :
    checkRateLimit DB.empty ip now =
      (true, ⟨[], [((ip, now / RATE_LIMIT_WINDOW * RATE_LIMIT_WINDOW), 1)],
        []⟩) := by
  simp only [checkRateLimit, DB.empty]
  rw [if_neg (by simp [alGet, RATE_LIMIT_MAX_REQUESTS])]
  simp only [alGet, alSet, Option.getD_none, List.filter_nil]
  rw [List.filter_cons_of_pos (by
    simp only [decide_not, Bool.not_eq_true', decide_eq_false_iff_not,
      RATE_LIMIT_WINDOW]
    omega)]
  simp

/-- The idempotency guard on an empty key table records exactly the new
key. -/
theorem checkIdempotency_nil (db : DB) (key : String) (now : Nat)
    (hnil : db.idempotency_keys = []) :
    (checkIdempotency db key now).2.idempotency_keys = [(key, now)] := by
  simp only [checkIdempotency, hnil, alGet]
  rw [if_neg (by simp)]
  simp only [alSet, hnil, List.filter_nil]
  rw [List.filter_cons_of_pos (by
    simp only [decide_not, Bool.not_eq_true', decide_eq_false_iff_not]
    omega)]
  simp

/-- C1: two requests carrying the same address and amount inside one
dedupe window (with budget to spare and no interfering record) persist
exactly one Event: the first is answered 201, the second 409, and the
final events table holds exactly the one new row. -/
theorem C1_dedupe_within_window (req : Request) (body0 : RequestBody)
    (amount : Int) (db : DB) (t1 t2 : Nat) (id1 id2 : String)
    (env1 env2 : GiteaEnv) (f1 f2 : ArchiveFetch) (p1 p2 : Bool)
    (hor : isSameOrigin req.originHeader req.urlHostname = true)
    (hbody : req.body = some body0)
    (hamt : amountValid (resolveAmount body0.amount_oz) = some amount)
    (hw : t1 / IDEMPOTENCY_WINDOW = t2 / IDEMPOTENCY_WINDOW)
    (hle : t1 ≤ t2)
    (hc : (alGet db.rate_limits
      (getClientIP req.cfConnectingIP req.xForwardedFor,
       t1 / RATE_LIMIT_WINDOW * RATE_LIMIT_WINDOW)).getD 0 + 1
      < RATE_LIMIT_MAX_REQUESTS)
    (hadm : ∀ created, alGet db.idempotency_keys
      (generateIdempotencyKey
        (getClientIP req.cfConnectingIP req.xForwardedFor) amount t1) =
        some created → IDEMPOTENCY_WINDOW ≤ t1 - created) :
    (onRequestPost ⟨req, db, env1, t1, id1, true, f1, p1⟩).response.status
      = 201 ∧
    (onRequestPost ⟨req,
      (onRequestPost ⟨req, db, env1, t1, id1, true, f1, p1⟩).db,
      env2, t2, id2, true, f2, p2⟩).response.status = 409 ∧
    (onRequestPost ⟨req,
      (onRequestPost ⟨req, db, env1, t1, id1, true, f1, p1⟩).db,
      env2, t2, id2, true, f2, p2⟩).db.events =
      db.events ++ [⟨id1, "water", some amount, t1,
        jsOrNull req.userAgent, jsOrNull body0.source,
        jsOrNull body0.note⟩] := by
  have hc1 : (alGet db.rate_limits
      (getClientIP req.cfConnectingIP req.xForwardedFor,
       t1 / RATE_LIMIT_WINDOW * RATE_LIMIT_WINDOW)).getD 0
      < RATE_LIMIT_MAX_REQUESTS := by omega
  have hg1 := onRequestPost_gates ⟨req, db, env1, t1, id1, true, f1, p1⟩
    body0 amount hor hbody hamt hc1 hadm
  have hD : (onRequestPost ⟨req, db, env1, t1, id1, true, f1, p1⟩).db.events
        = db.events ++ [⟨id1, "water", some amount, t1,
          jsOrNull req.userAgent, jsOrNull body0.source,
          jsOrNull body0.note⟩] ∧
      (onRequestPost ⟨req, db, env1, t1, id1, true,
        f1, p1⟩).db.rate_limits =
        (checkRateLimit db
          (getClientIP req.cfConnectingIP req.xForwardedFor)
          t1).2.rate_limits ∧
      (onRequestPost ⟨req, db, env1, t1, id1, true,
        f1, p1⟩).db.idempotency_keys =
        (checkIdempotency
          (checkRateLimit db
            (getClientIP req.cfConnectingIP req.xForwardedFor) t1).2
          (generateIdempotencyKey
            (getClientIP req.cfConnectingIP req.xForwardedFor) amount t1)
          t1).2.idempotency_keys := by
    rw [hg1]
    refine ⟨?_, ?_, ?_⟩ <;>
      simp [(checkIdempotency_frame _ _ _).1, (checkIdempotency_frame _ _ _).2,
        (checkRateLimit_frame _ _ _).1]
  obtain ⟨hDev, hDrl, hDik⟩ := hD
  refine ⟨by rw [hg1]; simp, ?_⟩
  set D := (onRequestPost ⟨req, db, env1, t1, id1, true, f1, p1⟩).db
    with hDdef
  have hcount2 : (alGet D.rate_limits
      (getClientIP req.cfConnectingIP req.xForwardedFor,
       t2 / RATE_LIMIT_WINDOW * RATE_LIMIT_WINDOW)).getD 0
      < RATE_LIMIT_MAX_REQUESTS := by
    rw [hDrl, ← rateWindow_of_dedupeWindow t1 t2 hw,
      checkRateLimit_increment db _ t1 hc1]
    simp only [Option.getD_some]
    omega
  have hrl2 := checkRateLimit_allowed D
    (getClientIP req.cfConnectingIP req.xForwardedFor) t2 hcount2
  have hik2 : alGet (checkRateLimit D
      (getClientIP req.cfConnectingIP req.xForwardedFor)
      t2).2.idempotency_keys
      (generateIdempotencyKey
        (getClientIP req.cfConnectingIP req.xForwardedFor) amount t2)
      = some t1 := by
    rw [(checkRateLimit_frame _ _ _).2, hDik,
      ← generateIdempotencyKey_window _ amount t1 t2 hw]
    exact checkIdempotency_stores _ _ _ (by
      intro created hcr
      exact hadm created (by rwa [(checkRateLimit_frame _ _ _).2] at hcr))
  have hage2 : t2 - t1 < IDEMPOTENCY_WINDOW := by
    simp only [IDEMPOTENCY_WINDOW] at hw ⊢
    omega
  have hdup2 := checkIdempotency_dup _ _ _ t1 hik2 hage2
  constructor
  · simp only [onRequestPost, hor, hbody, hamt, hrl2, hdup2]
    simp
  · simp only [onRequestPost, hor, hbody, hamt, hrl2, hdup2]
    simp [(checkRateLimit_frame _ _ _).1, hDev]

set_option maxRecDepth 8000 in
/-- Witness for C1: 32 oz from one address at t=1000 and again at t=1002
against a fresh database. -/
theorem C1_dedupe_within_window_witness :
    (onRequestPost ⟨⟨.parsed "example.com", "example.com", some "A", none,
      none, some ⟨some (.jnum 32), none, none⟩⟩, DB.empty, GiteaEnv.unset,
      1000, "i1", true, .notFound, true⟩).response.status = 201 ∧
    (onRequestPost ⟨⟨.parsed "example.com", "example.com", some "A", none,
      none, some ⟨some (.jnum 32), none, none⟩⟩,
      (onRequestPost ⟨⟨.parsed "example.com", "example.com", some "A",
        none, none, some ⟨some (.jnum 32), none, none⟩⟩, DB.empty,
        GiteaEnv.unset, 1000, "i1", true, .notFound, true⟩).db,
      GiteaEnv.unset, 1002, "i2", true, .notFound,
      true⟩).response.status = 409 ∧
    (onRequestPost ⟨⟨.parsed "example.com", "example.com", some "A", none,
      none, some ⟨some (.jnum 32), none, none⟩⟩,
      (onRequestPost ⟨⟨.parsed "example.com", "example.com", some "A",
        none, none, some ⟨some (.jnum 32), none, none⟩⟩, DB.empty,
        GiteaEnv.unset, 1000, "i1", true, .notFound, true⟩).db,
      GiteaEnv.unset, 1002, "i2", true, .notFound, true⟩).db.events =
      [⟨"i1", "water", some 32, 1000, none, none, none⟩] :=
  C1_dedupe_within_window
    ⟨.parsed "example.com", "example.com", some "A", none, none,
      some ⟨some (.jnum 32), none, none⟩⟩
    ⟨some (.jnum 32), none, none⟩ 32 DB.empty 1000 1002 "i1" "i2"
    GiteaEnv.unset GiteaEnv.unset .notFound .notFound true true
    (by decide) rfl (by decide) (by decide) (by decide) (by decide)
    (fun created hcr => nomatch hcr)

/-- C6: with the same address and amount, a request in dedupe window N
and another in window N+1 beyond the dedupe horizon are both admitted as
non-duplicates, persisting two Events under the two fresh ids; concretely
32 oz at t=1000 is answered 201 with created_at 1000, an identical repeat
at t=1002 is answered 409, and a repeat at t=1010 is answered 201 under a
new id. -/
theorem C6_window_rollover (req : Request) (body0 : RequestBody)
    (amount : Int) (t1 t2 : Nat) (id1 id2 : String)
    (env1 env2 : GiteaEnv) (f1 f2 : ArchiveFetch) (p1 p2 : Bool)
    (hor : isSameOrigin req.originHeader req.urlHostname = true)
    (hbody : req.body = some body0)
    (hamt : amountValid (resolveAmount body0.amount_oz) = some amount)
    (hwin : t2 / IDEMPOTENCY_WINDOW = t1 / IDEMPOTENCY_WINDOW + 1)
    (hhor : t1 + IDEMPOTENCY_WINDOW ≤ t2) :
    ((onRequestPost ⟨req, DB.empty, env1, t1, id1, true, f1,
        p1⟩).response.status = 201 ∧
      (onRequestPost ⟨req,
        (onRequestPost ⟨req, DB.empty, env1, t1, id1, true, f1, p1⟩).db,
        env2, t2, id2, true, f2, p2⟩).response.status = 201 ∧
      (onRequestPost ⟨req,
        (onRequestPost ⟨req, DB.empty, env1, t1, id1, true, f1, p1⟩).db,
        env2, t2, id2, true, f2, p2⟩).db.events.map Event.id =
        [id1, id2]) ∧
    (runSeq DB.empty [("A", 32, 1000, "i1"), ("A", 32, 1002, "i2"),
      ("A", 32, 1010, "i3")]).1 = [201, 409, 201] ∧
    (postWater DB.empty "A" 32 1000 "i1").response =
      ⟨201, .success "i1" 32 1000⟩ ∧
    (runSeq DB.empty [("A", 32, 1000, "i1"), ("A", 32, 1002, "i2"),
      ("A", 32, 1010, "i3")]).2.events.map Event.id = ["i1", "i3"] := by
  refine ⟨?_, by decide, by decide, by decide⟩
  have hc1 : (alGet DB.empty.rate_limits
      (getClientIP req.cfConnectingIP req.xForwardedFor,
       t1 / RATE_LIMIT_WINDOW * RATE_LIMIT_WINDOW)).getD 0
      < RATE_LIMIT_MAX_REQUESTS := by
    simp [DB.empty, alGet, RATE_LIMIT_MAX_REQUESTS]
  have hadm1 : ∀ created, alGet DB.empty.idempotency_keys
      (generateIdempotencyKey
        (getClientIP req.cfConnectingIP req.xForwardedFor) amount t1) =
      some created → IDEMPOTENCY_WINDOW ≤ t1 - created :=
    fun created hcr => nomatch hcr
  have hg1 := onRequestPost_gates ⟨req, DB.empty, env1, t1, id1, true, f1,
    p1⟩ body0 amount hor hbody hamt hc1 hadm1
  have hik0 : (checkRateLimit DB.empty
      (getClientIP req.cfConnectingIP req.xForwardedFor)
      t1).2.idempotency_keys = [] := by
    rw [(checkRateLimit_frame _ _ _).2]
    rfl
  have hcik := checkIdempotency_nil _
    (generateIdempotencyKey
      (getClientIP req.cfConnectingIP req.xForwardedFor) amount t1) t1 hik0
  have hD : (onRequestPost ⟨req, DB.empty, env1, t1, id1, true, f1,
        p1⟩).db.events = [⟨id1, "water", some amount, t1,
          jsOrNull req.userAgent, jsOrNull body0.source,
          jsOrNull body0.note⟩] ∧
      (onRequestPost ⟨req, DB.empty, env1, t1, id1, true, f1,
        p1⟩).db.rate_limits =
        [((getClientIP req.cfConnectingIP req.xForwardedFor,
           t1 / RATE_LIMIT_WINDOW * RATE_LIMIT_WINDOW), 1)] ∧
      (onRequestPost ⟨req, DB.empty, env1, t1, id1, true, f1,
        p1⟩).db.idempotency_keys =
        [((generateIdempotencyKey
          (getClientIP req.cfConnectingIP req.xForwardedFor) amount t1),
          t1)] := by
    rw [hg1]
    refine ⟨?_, ?_, ?_⟩
    · simp [(checkIdempotency_frame _ _ _).1,
        (checkRateLimit_frame _ _ _).1, DB.empty]
    · simp [(checkIdempotency_frame _ _ _).2, checkRateLimit_empty]
    · simp [hcik]
  obtain ⟨hDev, hDrl, hDik⟩ := hD
  refine ⟨by rw [hg1]; simp, ?_⟩
  set D := (onRequestPost ⟨req, DB.empty, env1, t1, id1, true, f1, p1⟩).db
    with hDdef
  have hcount2 : (alGet D.rate_limits
      (getClientIP req.cfConnectingIP req.xForwardedFor,
       t2 / RATE_LIMIT_WINDOW * RATE_LIMIT_WINDOW)).getD 0
      < RATE_LIMIT_MAX_REQUESTS := by
    rw [hDrl]
    simp only [alGet]
    split <;> simp [RATE_LIMIT_MAX_REQUESTS]
  have hadm2 : ∀ created, alGet D.idempotency_keys
      (generateIdempotencyKey
        (getClientIP req.cfConnectingIP req.xForwardedFor) amount t2) =
      some created → IDEMPOTENCY_WINDOW ≤ t2 - created := by
    intro created hcr
    rw [hDik] at hcr
    simp only [alGet] at hcr
    split at hcr
    · cases hcr
      simp only [IDEMPOTENCY_WINDOW] at hhor ⊢
      omega
    · exact absurd hcr (by simp)
  have hg2 := onRequestPost_gates ⟨req, D, env2, t2, id2, true, f2, p2⟩
    body0 amount hor hbody hamt hcount2 hadm2
  refine ⟨by rw [hg2]; simp, ?_⟩
  rw [hg2]
  simp [(checkIdempotency_frame _ _ _).1, (checkRateLimit_frame _ _ _).1,
    hDev]

set_option maxRecDepth 8000 in
/-- Witness for C6: 32 oz at t=1000 and again at t=1005 (window N+1, five
seconds later) both get 201 with two Events stored. -/
theorem C6_window_rollover_witness :
    ((onRequestPost ⟨⟨.parsed "example.com", "example.com", some "A",
        none, none, some ⟨some (.jnum 32), none, none⟩⟩, DB.empty,
        GiteaEnv.unset, 1000, "i1", true, .notFound,
        true⟩).response.status = 201 ∧
      (onRequestPost ⟨⟨.parsed "example.com", "example.com", some "A",
        none, none, some ⟨some (.jnum 32), none, none⟩⟩,
        (onRequestPost ⟨⟨.parsed "example.com", "example.com", some "A",
          none, none, some ⟨some (.jnum 32), none, none⟩⟩, DB.empty,
          GiteaEnv.unset, 1000, "i1", true, .notFound, true⟩).db,
        GiteaEnv.unset, 1005, "i2", true, .notFound,
        true⟩).response.status = 201 ∧
      (onRequestPost ⟨⟨.parsed "example.com", "example.com", some "A",
        none, none, some ⟨some (.jnum 32), none, none⟩⟩,
        (onRequestPost ⟨⟨.parsed "example.com", "example.com", some "A",
          none, none, some ⟨some (.jnum 32), none, none⟩⟩, DB.empty,
          GiteaEnv.unset, 1000, "i1", true, .notFound, true⟩).db,
        GiteaEnv.unset, 1005, "i2", true, .notFound,
        true⟩).db.events.map Event.id = ["i1", "i2"]) ∧
    (runSeq DB.empty [("A", 32, 1000, "i1"), ("A", 32, 1002, "i2"),
      ("A", 32, 1010, "i3")]).1 = [201, 409, 201] ∧
    (postWater DB.empty "A" 32 1000 "i1").response =
      ⟨201, .success "i1" 32 1000⟩ ∧
    (runSeq DB.empty [("A", 32, 1000, "i1"), ("A", 32, 1002, "i2"),
      ("A", 32, 1010, "i3")]).2.events.map Event.id = ["i1", "i3"] :=
  C6_window_rollover
    ⟨.parsed "example.com", "example.com", some "A", none, none,
      some ⟨some (.jnum 32), none, none⟩⟩
    ⟨some (.jnum 32), none, none⟩ 32 1000 1005 "i1" "i2"
    GiteaEnv.unset GiteaEnv.unset .notFound .notFound true true
    (by decide) rfl (by decide) (by decide) (by decide)

end SpillYourGuts
